import Mathlib

/-
Verification of the streaming pull protocol handler of the ollamaclient
repository (Go).  The development shallowly embeds the two Pull
implementations found in the sources:

  * `Pull`       — the current implementation in src/pull.go (progress-bar
                   rendering, digest tracking, fixed 48h timeout constant);
  * `PullStrict` — the historical strict variant in src/unnamed/part_000
                   (status-prefix policy, configured timeout).

Machine integers (Go int64) are modelled as `Int`; Go float64 arithmetic on
the progress percentage is modelled exactly over `ℚ`, with the float→int
conversion modelled as truncation toward zero (`goTrunc`); all inputs used
in concrete evaluations are exactly representable, so the rational model
agrees with the float computation there.  A Go panic (strings.Repeat with a
negative count) is modelled as `none`.  Durations are nanosecond counts
(`Nat`), matching Go's time.Duration.  The JSON stream decoder is modelled
by its observable behaviour: each call to Decode either yields a record or
an error; an exhausted body yields the io.EOF error.  Elapsed wall-clock
time at each iteration's timeout check is an input attached to the stream
item.  Printing to stdout is modelled as an output trace of strings.
-/

namespace Ollama

/-- Durations are nanosecond counts, as in Go's time.Duration. -/
abbrev Duration := Nat

/-- `defaultPullTimeout = 48 * time.Hour` from src/pull.go (nanoseconds). -/
def defaultPullTimeout : Duration := 48 * 3600 * 1000000000

/-- The `Config` struct from src/unnamed/part_000 (fields used by Pull). -/
structure Config where
  API : String
  Model : String
  Verbose : Bool
  PullTimeout : Duration
deriving DecidableEq

/-- The `PullResponse` struct from src/pull.go: one decoded stream record. -/
structure PullResponse where
  digest : String
  completed : Int
  total : Int
  status : String
deriving DecidableEq

/-- Errors produced by the embedded code; fmt.Errorf results are modelled
structurally, keeping the data interpolated into the format string. -/
inductive GoErr where
  | eof                                             -- io.EOF from Decode at end of body
  | decode (msg : String)                           -- a Decode error on malformed data
  | transport (msg : String)                        -- http Post returned an error
  | pullTimedOut (model : String) (d : Duration)    -- "downloading %s timed out after %v"
  | strictUnexpectedStatus (status : String)        -- "recevied status when downloading: %s"
  | strictTimedOut (d : Duration)                   -- "pull timed out after %v"
deriving DecidableEq

/-- One observed call to decoder.Decode: either a record or an error, and
the wall-clock time elapsed since the download started, as sampled by the
iteration's timeout check. -/
structure StreamItem where
  decoded : Except String PullResponse
  elapsed : Duration

/-- The result of a pull call: returned string, returned error, and the
trace of text printed to stdout. -/
structure PullResult where
  text : String
  err : Option GoErr
  out : List String
deriving DecidableEq

/-- An HTTP response as seen by Pull: the status code (which the source
never reads) and the decoded body stream. -/
structure HttpResponse where
  statusCode : Int
  body : List StreamItem

/-- Go's `strings.Repeat`, which panics (here: `none`) on a negative count. -/
def goRepeat (s : String) (n : Int) : Option String :=
  if n < 0 then none
  else some (String.join (List.replicate n.toNat s))

/-- The local `max` helper defined in src/pull.go. -/
def goMax (a b : Int) : Int :=
  if a > b then a else b

/-- Go's float64→int conversion on an exact rational value: truncation
toward zero.  `Int.tdiv` is T-division, and a rational is stored in lowest
terms with a positive denominator, so this is the truncated quotient. -/
def goTrunc (q : ℚ) : Int :=
  Int.tdiv q.num (q.den : Int)

/-- Character-list prefix test (an executable equivalent of Go's
strings.HasPrefix on the decoded characters; digests and statuses are
ASCII, so byte positions and character positions agree). -/
def charsPref : List Char → List Char → Bool
  | [], _ => true
  | _ :: _, [] => false
  | c :: cs, d :: ds => c == d && charsPref cs ds

/-- Go's `strings.HasPrefix`. -/
def goHasPref (s p : String) : Bool := charsPref p.data s.data

/-- Go's `strings.TrimPrefix` (digests are ASCII, so byte counts and
character counts agree). -/
def goTrimPref (s p : String) : String :=
  if goHasPref s p then s.drop p.length else s

/-- The `colors` map from src/pull.go; when the NO_COLOR environment
signal is set, Pull overwrites every entry with the empty string, modelled
by the `noColor` flag.  A missing key yields "" as for a Go map. -/
def colorCode (noColor : Bool) (name : String) : String :=
  if noColor then ""
  else if name = "blue" then "\x1b[94m"
  else if name = "cyan" then "\x1b[96m"
  else if name = "gray" then "\x1b[37m"
  else if name = "magenta" then "\x1b[95m"
  else if name = "red" then "\x1b[91m"
  else if name = "white" then "\x1b[97m"
  else if name = "reset" then "\x1b[0m"
  else ""

/-- The `spinner` frame list from src/pull.go. -/
def spinner : List String := ["-", "\\", "|", "/"]

/-- `generateColorizedProgressBar` from src/pull.go, line for line:
`progressInt := int(progress / 100 * float64(width))`, a blue run of
`progressInt` equals signs, extra magenta and cyan runs past the third
marks, and `width - max(progressInt, width)` trailing spaces.  `none`
models the strings.Repeat panic on a negative count. -/
def generateColorizedProgressBar (noColor : Bool) (progress : ℚ) (width : Int) : Option String := do
  let progressInt : Int := goTrunc (progress / 100 * (width : ℚ))
  let e1 ← goRepeat "=" progressInt
  let bar0 := colorCode noColor "blue" ++ e1
  let bar1 ←
    if progressInt > Int.tdiv width 3 then do
      let e2 ← goRepeat "=" (goMax 0 (progressInt - Int.tdiv width 3))
      pure (bar0 ++ colorCode noColor "magenta" ++ e2)
    else pure bar0
  let bar2 ←
    if progressInt > Int.tdiv (2 * width) 3 then do
      let e3 ← goRepeat "=" (goMax 0 (progressInt - Int.tdiv (2 * width) 3))
      pure (bar1 ++ colorCode noColor "cyan" ++ e3)
    else pure bar1
  let sp ← goRepeat " " (width - goMax progressInt width)
  pure (bar2 ++ colorCode noColor "white" ++ sp ++ colorCode noColor "reset")

/-- The digest tracker's boundary test from src/pull.go:
`lastDigest != "" && lastDigest != resp.Digest`. -/
def digestBoundary (lastDigest cur : String) : Bool :=
  lastDigest != "" && lastDigest != cur

/-- The boundary test as the claim words it: the current record's digest is
non-empty and differs from the previous digest.  Stated only to be compared
with `digestBoundary`, the test the source performs. -/
def digestBoundarySpecClaim (lastDigest cur : String) : Bool :=
  cur != "" && cur != lastDigest

/-- Boundary flags along a digest sequence, threading the tracker state. -/
def boundaryGo (last : String) : List String → List Bool
  | [] => []
  | d :: rest => digestBoundary last d :: boundaryGo d rest

/-- Boundary flags for a whole stream, starting from the empty (null)
last-seen digest, as `Pull` initialises `lastDigest`. -/
def boundaryFlags (ds : List String) : List Bool := boundaryGo "" ds

/-- The tracker state after a digest sequence: `lastDigest = resp.Digest`
is executed unconditionally for every record. -/
def trackGo (last : String) : List String → String
  | [] => last
  | d :: rest => trackGo d rest

/-- The stored last-seen digest after processing a whole stream. -/
def trackDigest (ds : List String) : String := trackGo "" ds

/-- Model of the external go-humanize collaborator `humanize.Bytes`
(spec §6: a byte-formatting collaborator); only its use as display text
matters here, never its exact output. -/
def humanizeBytes (n : Nat) : String := toString n ++ " B"

/-- Go's uint64(i) conversion of an int64: reduction mod 2^64. -/
def toUInt64Nat (i : Int) : Nat := (Int.emod i (2 ^ 64)).toNat

/-- Model of Go's %.2f formatting of the progress percentage; the exact
rendering of the number is irrelevant to every claim. -/
def formatPercent (q : ℚ) : String := toString q

/-- The manifest-phase spinner line printed by src/pull.go. -/
def manifestLine (noColor : Bool) (pos : Nat) : String :=
  "\r" ++ colorCode noColor "white" ++ "Pulling manifest... "
    ++ spinner.getD (pos % spinner.length) "" ++ colorCode noColor "reset"

/-- The per-record progress line printed by src/pull.go. -/
def progressLine (noColor : Bool) (model shortDigest bar : String) (progress : ℚ)
    (completed total : Int) : String :=
  "\r" ++ colorCode noColor "white" ++ model ++ " - " ++ shortDigest ++ " [" ++ bar ++ "] "
    ++ formatPercent progress ++ "% - " ++ humanizeBytes (toUInt64Nat completed) ++ "/"
    ++ humanizeBytes (toUInt64Nat total) ++ " " ++ colorCode noColor "reset"

/-- The completion line printed by src/pull.go when status is "success". -/
def completeLine (model : String) : String :=
  "\r" ++ model ++ " - Download complete!\x1b[K\n"

/-- The serialized request body of src/pull.go's PullRequest (no json
tags, so Go marshals the field names as written). -/
def pullRequestJSON (model : String) : String :=
  "\x7b\"Name\":\"" ++ model ++ "\",\"Stream\":true\x7d"

/-- The serialized request body of part_000's PullRequest (json tags
name/stream, insecure omitted as false). -/
def pullRequestJSONTagged (model : String) : String :=
  "\x7b\"name\":\"" ++ model ++ "\",\"stream\":true\x7d"

/-- The loop state of src/pull.go's Pull: the (never written) strings
Builder, the spinner index, the last seen digest, and the output trace. -/
structure LoopState where
  sb : String
  spinnerPosition : Nat
  lastDigest : String
  out : List String

/-- Outcome of one iteration of the record loop of src/pull.go. -/
inductive StepOut where
  | crash                    -- a panic inside the iteration
  | done (r : PullResult)    -- return or break out of the loop
  | next (st : LoopState)    -- fall through to the next iteration

/-- One iteration of the record loop of src/pull.go's Pull, in source
order: decode, digest truncation, digest-boundary newline, unconditional
lastDigest update, spinner or progress-bar rendering, the success check,
then the timeout check against the `defaultPullTimeout` constant. -/
def pullStep (oc : Config) (noColor verbose : Bool) (st : LoopState) (item : StreamItem) :
    StepOut :=
  match item.decoded with
  | .error msg => .done ⟨st.sb, some (.decode msg), st.out⟩
  | .ok resp =>
    let sd0 := goTrimPref resp.digest "sha256:"
    let shortDigest := if sd0.length > 8 then sd0.take 8 else sd0
    let out1 := if digestBoundary st.lastDigest resp.digest && verbose
      then st.out ++ ["\n"] else st.out
    let st1 : LoopState := { st with lastDigest := resp.digest, out := out1 }
    let st2? : Option LoopState :=
      if resp.total = 0 then
        some (if verbose
          then { st1 with out := st1.out ++ [manifestLine noColor st1.spinnerPosition],
                          spinnerPosition := st1.spinnerPosition + 1 }
          else st1)
      else
        let progress : ℚ := (resp.completed : ℚ) / (resp.total : ℚ) * 100
        match generateColorizedProgressBar noColor progress 30 with
        | none => none
        | some bar =>
          some (if verbose
            then { st1 with out := st1.out ++
                    [progressLine noColor oc.Model shortDigest bar progress
                      resp.completed resp.total] }
            else st1)
    match st2? with
    | none => .crash
    | some st2 =>
      if resp.status = "success" then
        .done ⟨st2.sb, none, if verbose then st2.out ++ [completeLine oc.Model] else st2.out⟩
      else if item.elapsed > defaultPullTimeout then
        .done ⟨st2.sb, some (.pullTimedOut oc.Model defaultPullTimeout), st2.out⟩
      else
        .next st2

/-- The record loop of src/pull.go's Pull.  An exhausted body makes
Decode yield io.EOF, which the loop returns like any decode error.
`none` propagates a panic. -/
def pullLoop (oc : Config) (noColor verbose : Bool) (st : LoopState) :
    List StreamItem → Option PullResult
  | [] => some ⟨st.sb, some .eof, st.out⟩
  | item :: rest =>
    match pullStep oc noColor verbose st item with
    | .crash => none
    | .done r => some r
    | .next st2 => pullLoop oc noColor verbose st2 rest

/-- The effective verbose flag: the config's flag, forced on by a true
first optional argument. -/
def pullVerbose (oc : Config) (ov : List Bool) : Bool :=
  oc.Verbose || ov.headD false

/-- The request line printed by src/pull.go before the POST. -/
def sendLine (oc : Config) : String :=
  "Sending request to " ++ oc.API ++ "/api/pull: " ++ pullRequestJSON oc.Model ++ "\n"

/-- The output printed by src/pull.go's Pull before the POST result is
inspected. -/
def pullPreOut (oc : Config) (verbose : Bool) : List String :=
  if verbose then [sendLine oc] else []

/-- `Pull` from src/pull.go.  `noColor` models the NO_COLOR environment
signal; `post` is the outcome of http.Post (json.Marshal of the fixed
two-field struct cannot fail and is not modelled as failing).  The
response's status code is carried but, as in the source, never read: a
transport error returns immediately, any response body is decoded. -/
def Pull (oc : Config) (noColor : Bool) (ov : List Bool)
    (post : Except String HttpResponse) : Option PullResult :=
  let verbose := pullVerbose oc ov
  let out0 := pullPreOut oc verbose
  match post with
  | .error msg => some ⟨"", some (.transport msg), out0⟩
  | .ok r => pullLoop oc noColor verbose ⟨"", 0, "", out0⟩ r.body

/-- The record loop of the strict historical Pull in src/unnamed/part_000:
every status is appended to the accumulator; a status without the
"downloading "/"pulling " prefixes either ends the loop (prefix
"verifying ") or returns "" with an error embedding the status; a decode
error (including io.EOF at end of body) breaks the loop, returning the
accumulator and no error; the timeout check compares against the
configured oc.PullTimeout. -/
def pullStrictLoop (oc : Config) (verbose : Bool) (gotUnusual : Bool) (sb : String)
    (out : List String) : List StreamItem → PullResult
  | [] => ⟨sb, none, if verbose then out ++ [" OK\n"] else out⟩
  | item :: rest =>
    match item.decoded with
    | .error _ => ⟨sb, none, if verbose then out ++ [" OK\n"] else out⟩
    | .ok resp =>
      let sb2 := sb ++ resp.status
      if !(goHasPref resp.status "downloading ") && !(goHasPref resp.status "pulling ") then
        if goHasPref resp.status "verifying " then
          ⟨sb2, none, if verbose then out ++ [" OK\n"] else out⟩
        else
          ⟨"", some (.strictUnexpectedStatus resp.status),
            if verbose then (if !gotUnusual then out ++ ["\n"] else out) ++ [resp.status ++ "\n"]
            else out⟩
      else
        let out2 := if verbose && !gotUnusual then out ++ ["."] else out
        if item.elapsed > oc.PullTimeout then
          ⟨sb2, some (.strictTimedOut oc.PullTimeout), out2⟩
        else
          pullStrictLoop oc verbose gotUnusual sb2 out2 rest

/-- The request line printed by part_000's Pull before the POST. -/
def sendLineTagged (oc : Config) : String :=
  "Sending request to " ++ oc.API ++ "/api/pull: " ++ pullRequestJSONTagged oc.Model ++ "\n"

/-- `Pull` from src/unnamed/part_000 (the strict historical variant). -/
def PullStrict (oc : Config) (ov : List Bool) (post : Except String HttpResponse) : PullResult :=
  let verbose := pullVerbose oc ov
  let out0 := if verbose then [sendLineTagged oc] else []
  match post with
  | .error msg => ⟨"", some (.transport msg), out0⟩
  | .ok r =>
    let out1 := if verbose then out0 ++ ["Downloading and/or updating " ++ oc.Model ++ "..."]
      else out0
    pullStrictLoop oc verbose false "" out1 r.body

/-- The observable result pair (returned text, returned error) of a pull,
without the stdout trace. -/
def resPair (r : PullResult) : String × Option GoErr := (r.text, r.err)

/-- A record renders without panicking: either the manifest branch is
taken (total = 0) or the progress bar of its completion ratio is built. -/
def rendOkB (noColor : Bool) (resp : PullResponse) : Bool :=
  resp.total == 0 ||
    (generateColorizedProgressBar noColor ((resp.completed : ℚ) / (resp.total : ℚ) * 100) 30).isSome

/-- A stream item that lets the loop of src/pull.go fall through to the
next iteration: it decodes, is not a success record, renders without
panicking, and does not trip the (fixed) timeout. -/
def benignB (noColor : Bool) (item : StreamItem) : Bool :=
  match item.decoded with
  | .error _ => false
  | .ok resp =>
    resp.status != "success" && rendOkB noColor resp && decide (item.elapsed ≤ defaultPullTimeout)

/-- Character-list substring search helper. -/
def charsSub : List Char → List Char → Bool
  | [], needle => needle.isEmpty
  | h :: t, needle => charsPref needle (h :: t) || charsSub t needle

/-- Substring occurrence test (used to state that returned text contains a
success indicator). -/
def strHasSub (s sub : String) : Bool := charsSub s.data sub.data

/- Helper lemmas evaluating the integer thirds of the fixed bar width and
the truncation of concrete progress values. -/

theorem int_tdiv_30_3 : Int.tdiv 30 3 = 10 := by decide

theorem int_tdiv_60_3 : Int.tdiv 60 3 = 20 := by decide

theorem goTrunc_prod_0 : goTrunc ((0 : ℚ) / 100 * 30) = 0 := by norm_num [goTrunc]

theorem goTrunc_prod_50 : goTrunc ((50 : ℚ) / 100 * 30) = 15 := by norm_num [goTrunc]

theorem goTrunc_prod_100 : goTrunc ((100 : ℚ) / 100 * 30) = 30 := by norm_num [goTrunc]

theorem goTrunc_prod_200 : goTrunc ((200 : ℚ) / 100 * 30) = 60 := by norm_num [goTrunc]

theorem goTrunc_lit_0 : goTrunc 0 = 0 := by norm_num [goTrunc]

theorem goTrunc_lit_15 : goTrunc 15 = 15 := by norm_num [goTrunc]

theorem goTrunc_lit_30 : goTrunc 30 = 30 := by norm_num [goTrunc]

theorem goTrunc_lit_60 : goTrunc 60 = 60 := by norm_num [goTrunc]

end Ollama

namespace Ollama

/- Step lemmas about the record loop of src/pull.go. -/

/-- A decode failure on a record makes the loop return the accumulator (the
never-written strings.Builder) together with the decode error. -/
theorem pullStep_decode_error (oc : Config) (nc v : Bool) (st : LoopState) (msg : String)
    (t : Duration) :
    pullStep oc nc v st ⟨.error msg, t⟩ = .done ⟨st.sb, some (.decode msg), st.out⟩ := rfl

/-- A record that is not a success, renders without panicking and does not
trip the fixed timeout makes the loop fall through, leaving the accumulator
untouched. -/
theorem pullStep_benign (oc : Config) (nc v : Bool) (st : LoopState) (resp : PullResponse)
    (t : Duration) (h1 : resp.status ≠ "success") (h2 : rendOkB nc resp = true)
    (h3 : ¬ t > defaultPullTimeout) :
    ∃ st2, pullStep oc nc v st ⟨.ok resp, t⟩ = .next st2 ∧ st2.sb = st.sb := by
  by_cases h0 : resp.total = 0
  · simp [pullStep, h0, h1, h3]
    cases v <;> simp
  · obtain ⟨bar, hbar⟩ := Option.isSome_iff_exists.mp (by simpa [rendOkB, h0] using h2)
    simp [pullStep, h0, hbar, h1, h3]
    cases v <;> simp

/-- A success record ends the loop with the accumulator and no error,
provided its rendering does not panic. -/
theorem pullStep_success (oc : Config) (nc v : Bool) (st : LoopState) (resp : PullResponse)
    (t : Duration) (h1 : resp.status = "success") (h2 : rendOkB nc resp = true) :
    ∃ out, pullStep oc nc v st ⟨.ok resp, t⟩ = .done ⟨st.sb, none, out⟩ := by
  by_cases h0 : resp.total = 0
  · simp [pullStep, h0, h1]
    cases v <;> simp
  · obtain ⟨bar, hbar⟩ := Option.isSome_iff_exists.mp (by simpa [rendOkB, h0] using h2)
    simp [pullStep, h0, hbar, h1]
    cases v <;> simp

/-- A non-success record past the fixed 48h constant ends the loop with the
accumulator and a timeout error built from the model name and that
constant — the configured PullTimeout plays no part. -/
theorem pullStep_timeout (oc : Config) (nc v : Bool) (st : LoopState) (resp : PullResponse)
    (t : Duration) (h1 : resp.status ≠ "success") (h2 : rendOkB nc resp = true)
    (h3 : t > defaultPullTimeout) :
    ∃ out, pullStep oc nc v st ⟨.ok resp, t⟩ =
      .done ⟨st.sb, some (.pullTimedOut oc.Model defaultPullTimeout), out⟩ := by
  by_cases h0 : resp.total = 0
  · simp [pullStep, h0, h1, h3]
    cases v <;> simp
  · obtain ⟨bar, hbar⟩ := Option.isSome_iff_exists.mp (by simpa [rendOkB, h0] using h2)
    simp [pullStep, h0, hbar, h1, h3]
    cases v <;> simp

/-- A prefix of benign records is consumed without touching the
accumulator, and the rest of the stream is processed from the state the
prefix produced, whatever that rest is. -/
theorem pullLoop_benign_append (oc : Config) (nc v : Bool) :
    ∀ (pre : List StreamItem) (st : LoopState), pre.all (benignB nc) = true →
      ∃ st2, st2.sb = st.sb ∧
        ∀ rest, pullLoop oc nc v st (pre ++ rest) = pullLoop oc nc v st2 rest := by
  intro pre
  induction pre with
  | nil => exact fun st _ => ⟨st, rfl, fun _ => rfl⟩
  | cons x pre ih =>
    intro st hall
    rw [List.all_cons, Bool.and_eq_true] at hall
    obtain ⟨d, t⟩ := x
    match hd : d with
    | .error msg => simp [benignB] at hall
    | .ok resp =>
      have hb := hall.1
      simp only [benignB, Bool.and_eq_true, bne_iff_ne, ne_eq, decide_eq_true_eq] at hb
      obtain ⟨st1, hstep, hsb⟩ :=
        pullStep_benign oc nc v st resp t hb.1.1 hb.1.2 (not_lt.mpr hb.2)
      obtain ⟨st2, hsb2, hrest⟩ := ih st1 hall.2
      exact ⟨st2, by rw [hsb2, hsb], fun rest => by
        simp only [List.cons_append, pullLoop, hstep]; exact hrest rest⟩

end Ollama

namespace Ollama

/-- C4 (code evaluation at the failing inputs): at the fixed width 30 the
visible output of the renderer (all color codes disabled, so the string is
exactly the visible characters) has length 0 at 0%, 20 at 50% and 60 at
100% — never the claimed width 30: the trailing-space count
`width - max(progressInt, width)` is 0 whenever the bar is not overfull,
and the extra magenta/cyan runs duplicate fill characters, although the
call site in Pull labels the call a fixed width bar. -/
theorem C4_bar_visible_length_not_width :
    (generateColorizedProgressBar true 0 30).map String.length = some 0 ∧
    (generateColorizedProgressBar true 50 30).map String.length = some 20 ∧
    (generateColorizedProgressBar true 100 30).map String.length = some 60 := by
  refine ⟨?_, ?_, ?_⟩
  · simp [generateColorizedProgressBar, goTrunc_prod_0, goTrunc_lit_0, goRepeat, goMax,
      colorCode, int_tdiv_30_3, int_tdiv_60_3]
    decide
  · simp [generateColorizedProgressBar, goTrunc_prod_50, goTrunc_lit_15, goRepeat, goMax,
      colorCode, int_tdiv_30_3, int_tdiv_60_3]
    decide
  · simp [generateColorizedProgressBar, goTrunc_prod_100, goTrunc_lit_30, goRepeat, goMax,
      colorCode, int_tdiv_30_3, int_tdiv_60_3]
    decide

/-- C5 (code evaluation at the failing input): at 200% progress — as a
record with completed = 200, total = 100 produces — the renderer reaches
`strings.Repeat(" ", 30 - max(60, 30))`, a negative count, and panics
(modelled as `none`), with or without colors; the panic propagates out of
Pull, whose progress-bar construction is not guarded by the verbose flag. -/
theorem C5_bar_panics_above_hundred :
    generateColorizedProgressBar true 200 30 = none ∧
    generateColorizedProgressBar false 200 30 = none ∧
    Pull ⟨"http://localhost:11434", "tinyllama", false, defaultPullTimeout⟩ true []
      (.ok ⟨200, [⟨.ok ⟨"sha256:abc", 200, 100, "downloading sha256:abc"⟩, 0⟩]⟩) = none := by
  refine ⟨?_, ?_, ?_⟩
  · simp [generateColorizedProgressBar, goTrunc_prod_200, goTrunc_lit_60, goRepeat, goMax,
      colorCode, int_tdiv_30_3, int_tdiv_60_3]
  · simp [generateColorizedProgressBar, goTrunc_prod_200, goTrunc_lit_60, goRepeat, goMax,
      colorCode, int_tdiv_30_3, int_tdiv_60_3]
  · have h : ((200 : ℤ) : ℚ) / ((100 : ℤ) : ℚ) * 100 = (200 : ℚ) := by norm_num
    simp [Pull, pullLoop, pullStep, pullVerbose, pullPreOut, h, goTrunc_prod_200,
      goTrunc_lit_60, generateColorizedProgressBar, goRepeat, goMax, colorCode,
      int_tdiv_30_3, int_tdiv_60_3]

/-- C6 (counterexample): a response with the non-2xx status code 500 whose
body is a well-formed success stream is processed like any stream — Pull
decodes its records and returns no error, instead of returning an error
immediately without entering the record loop. -/
theorem C6_non2xx_body_processed :
    Pull ⟨"http://localhost:11434", "tinyllama", false, defaultPullTimeout⟩ true []
      (.ok ⟨500, [⟨.ok ⟨"", 0, 0, "success"⟩, 0⟩]⟩) = some ⟨"", none, []⟩ := by
  decide

/-- C6 (amended): only a transport-level failure of the POST (connection
refused, network error — the cases where http.Post itself returns an
error) is returned immediately, before any record is decoded; the
response's HTTP status code is never inspected, so the body of a non-2xx
response enters the record loop like any other. -/
theorem C6_transport_error_immediate (oc : Config) (nc : Bool) (ov : List Bool) (msg : String) :
    Pull oc nc ov (.error msg) =
      some ⟨"", some (.transport msg), pullPreOut oc (pullVerbose oc ov)⟩ ∧
    ∀ (code code' : Int) (body : List StreamItem),
      Pull oc nc ov (.ok ⟨code, body⟩) = Pull oc nc ov (.ok ⟨code', body⟩) := by
  exact ⟨rfl, fun _ _ _ => rfl⟩

/-- C8 (counterexample): with previous digest D1 and current digest empty,
the source reports a boundary (the newline is keyed on the previous digest
being non-empty and differing), while the claim's rule — current digest
non-empty and differing — reports none; on the digest sequence [D1, ""]
the code flags the second record as a boundary. -/
theorem C8_boundary_on_empty_current_digest :
    digestBoundary "D1" "" = true ∧ digestBoundarySpecClaim "D1" "" = false ∧
    boundaryFlags ["D1", ""] = [false, true] := by
  decide

/-- C8 (amended): the tracker reports a phase boundary exactly when the
previous stored digest is non-empty and differs from the current record's
digest; the stored digest is updated to the current record's digest
unconditionally after every record (so after any sequence it equals the
last digest seen); and on digests [D1, D1, D2, D2] exactly one boundary is
detected, before the first D2 record and not before the second D1. -/
theorem C8_tracker_previous_digest_rule :
    (∀ (last : String) (ds : List String) (d : String),
        boundaryGo last (ds ++ [d]) = boundaryGo last ds ++ [digestBoundary (trackGo last ds) d]) ∧
    (∀ (last : String) (ds : List String) (d : String), trackGo last (ds ++ [d]) = d) ∧
    boundaryFlags ["D1", "D1", "D2", "D2"] = [false, false, true, false] := by
  refine ⟨?_, ?_, by decide⟩
  · intro last ds d
    induction ds generalizing last with
    | nil => rfl
    | cons x ds ih => simp [boundaryGo, trackGo, ih]
  · intro last ds d
    induction ds generalizing last with
    | nil => rfl
    | cons x ds ih => simp [trackGo, ih]

/-- C10: in the strict historical variant, a decoded record whose status
lacks both the "downloading " and "pulling " prefixes either ends the loop
with the accumulated text (including that status) and no error when the
status has the "verifying " prefix, or — for any other status, including
"success" itself — makes Pull return the empty string, not the
accumulator, together with an error embedding that status. -/
theorem C10_strict_unusual_status (oc : Config) (v g : Bool) (sb : String) (out : List String)
    (s : PullResponse) (t : Duration) (rest : List StreamItem)
    (hdl : goHasPref s.status "downloading " = false)
    (hpl : goHasPref s.status "pulling " = false) :
    (goHasPref s.status "verifying " = true →
      ∃ out2, pullStrictLoop oc v g sb out (⟨.ok s, t⟩ :: rest) = ⟨sb ++ s.status, none, out2⟩) ∧
    (goHasPref s.status "verifying " = false →
      ∃ out2, pullStrictLoop oc v g sb out (⟨.ok s, t⟩ :: rest) =
        ⟨"", some (.strictUnexpectedStatus s.status), out2⟩) := by
  constructor
  · intro hv
    cases v <;> simp [pullStrictLoop, hdl, hpl, hv]
  · intro hv
    cases v <;> cases g <;> simp [pullStrictLoop, hdl, hpl, hv]

/-- Witness for C10: at the concrete status "success" (with a non-empty
accumulator, showing the discarded text), and at a "verifying " status. -/
theorem C10_strict_unusual_status_witness :
    (∃ out2, pullStrictLoop ⟨"http://localhost:11434", "tinyllama", false, defaultPullTimeout⟩
        false false "downloading a" [] [⟨.ok ⟨"", 0, 0, "success"⟩, 0⟩] =
      ⟨"", some (.strictUnexpectedStatus "success"), out2⟩) ∧
    (∃ out2, pullStrictLoop ⟨"http://localhost:11434", "tinyllama", false, defaultPullTimeout⟩
        false false "downloading a" [] [⟨.ok ⟨"", 0, 0, "verifying sha256"⟩, 0⟩] =
      ⟨"downloading a" ++ "verifying sha256", none, out2⟩) ∧
    "downloading a" ++ "success" ≠ "" := by
  refine ⟨?_, ?_, by decide⟩
  · exact (C10_strict_unusual_status _ false false "downloading a" [] ⟨"", 0, 0, "success"⟩ 0 []
      (by decide) (by decide)).2 (by decide)
  · exact (C10_strict_unusual_status _ false false "downloading a" [] ⟨"", 0, 0, "verifying sha256"⟩
      0 [] (by decide) (by decide)).1 (by decide)

end Ollama

namespace Ollama

/-- C1 (counterexample): a stream whose only record is a success record
with completed = total = 100 makes Pull stop and return no error, but the
returned string is "" — the strings.Builder is never written — and the
empty string does not contain the success indicator. -/
theorem C1_success_text_lacks_indicator :
    Pull ⟨"http://localhost:11434", "tinyllama", false, defaultPullTimeout⟩ true []
      (.ok ⟨200, [⟨.ok ⟨"", 100, 100, "success"⟩, 0⟩]⟩) = some ⟨"", none, []⟩ ∧
    strHasSub "" "success" = false := by
  constructor
  · have h : ((100 : ℤ) : ℚ) / ((100 : ℤ) : ℚ) * 100 = (100 : ℚ) := by norm_num
    simp [Pull, pullLoop, pullStep, pullVerbose, pullPreOut, h, goTrunc_prod_100,
      goTrunc_lit_30, generateColorizedProgressBar, goRepeat, goMax, colorCode,
      int_tdiv_30_3, int_tdiv_60_3]
  · decide

/-- C1 (amended): on a record stream whose final decoded record has status
"success" (after a prefix of well-formed non-success records that render
without panicking and do not trip the timeout), Pull stops reading — the
result does not depend on anything after the success record — and returns
no error; the returned string is the accumulated status text, which is
always the empty string because no record status is ever appended to the
accumulator. -/
theorem C1_success_returns_empty_text (oc : Config) (nc : Bool) (ov : List Bool) (code : Int)
    (pre : List StreamItem) (s : PullResponse) (t : Duration)
    (hpre : pre.all (benignB nc) = true) (hs : s.status = "success")
    (hr : rendOkB nc s = true) :
    ∃ out, ∀ rest, Pull oc nc ov (.ok ⟨code, pre ++ ⟨.ok s, t⟩ :: rest⟩) =
      some ⟨"", none, out⟩ := by
  obtain ⟨st2, hsb, hrest⟩ := pullLoop_benign_append oc nc (pullVerbose oc ov) pre
    ⟨"", 0, "", pullPreOut oc (pullVerbose oc ov)⟩ hpre
  obtain ⟨out, hstep⟩ := pullStep_success oc nc (pullVerbose oc ov) st2 s t hs hr
  refine ⟨out, fun rest => ?_⟩
  show pullLoop oc nc (pullVerbose oc ov) ⟨"", 0, "", pullPreOut oc (pullVerbose oc ov)⟩
    (pre ++ ⟨.ok s, t⟩ :: rest) = _
  rw [hrest]
  simp only [pullLoop, hstep]
  rw [hsb]

/-- Witness for C1 at a concrete two-record stream ending in success. -/
theorem C1_success_returns_empty_text_witness :
    ∃ out, ∀ rest, Pull ⟨"http://localhost:11434", "tinyllama", false, defaultPullTimeout⟩
      true [] (.ok ⟨200, [⟨.ok ⟨"", 0, 0, "pulling manifest"⟩, 0⟩] ++
        ⟨.ok ⟨"", 0, 0, "success"⟩, 5⟩ :: rest⟩) = some ⟨"", none, out⟩ :=
  C1_success_returns_empty_text _ true [] 200 _ _ 5 (by decide) rfl (by decide)

/-- C2 (counterexample): when the first two records decode (statuses
"pulling manifest" and "downloading abc") and the third record's decode
fails, Pull returns the decode error together with "" — not the status
text of the first two records, which is non-empty. -/
theorem C2_third_record_text_not_accumulated :
    Pull ⟨"http://localhost:11434", "tinyllama", false, defaultPullTimeout⟩ true []
      (.ok ⟨200, [⟨.ok ⟨"", 0, 0, "pulling manifest"⟩, 0⟩,
        ⟨.ok ⟨"", 0, 0, "downloading abc"⟩, 0⟩,
        ⟨.error "unexpected end of JSON input", 0⟩]⟩) =
      some ⟨"", some (.decode "unexpected end of JSON input"), []⟩ ∧
    ("" : String) ≠ "pulling manifest" ++ "downloading abc" := by
  exact ⟨by decide, by decide⟩

/-- C2 (amended): a decode failure on the n-th record, after a prefix of
benign records, surfaces the decode error immediately, together with the
accumulated status text — which is always the empty string, since record
statuses are never appended to the accumulator. -/
theorem C2_decode_error_returns_empty_accumulator (oc : Config) (nc : Bool) (ov : List Bool)
    (code : Int) (pre : List StreamItem) (msg : String) (t : Duration) (rest : List StreamItem)
    (hpre : pre.all (benignB nc) = true) :
    ∃ out, Pull oc nc ov (.ok ⟨code, pre ++ ⟨.error msg, t⟩ :: rest⟩) =
      some ⟨"", some (.decode msg), out⟩ := by
  obtain ⟨st2, hsb, hrest⟩ := pullLoop_benign_append oc nc (pullVerbose oc ov) pre
    ⟨"", 0, "", pullPreOut oc (pullVerbose oc ov)⟩ hpre
  refine ⟨st2.out, ?_⟩
  show pullLoop oc nc (pullVerbose oc ov) ⟨"", 0, "", pullPreOut oc (pullVerbose oc ov)⟩
    (pre ++ ⟨.error msg, t⟩ :: rest) = _
  rw [hrest]
  simp only [pullLoop, pullStep_decode_error]
  rw [hsb]

/-- Witness for C2 at a concrete stream failing on the third record. -/
theorem C2_decode_error_returns_empty_accumulator_witness :
    ∃ out, Pull ⟨"http://localhost:11434", "tinyllama", false, defaultPullTimeout⟩ true []
      (.ok ⟨200, [⟨.ok ⟨"", 0, 0, "pulling manifest"⟩, 0⟩,
        ⟨.ok ⟨"", 0, 0, "downloading abc"⟩, 0⟩] ++
        ⟨.error "unexpected end of JSON input", 0⟩ :: []⟩) =
      some ⟨"", some (.decode "unexpected end of JSON input"), out⟩ :=
  C2_decode_error_returns_empty_accumulator _ true [] 200 _ _ 0 [] (by decide)

/-- C3 (counterexample): with the configured PullTimeout set to 1ns and a
well-formed record whose elapsed time (1s) exceeds it, Pull does not time
out — the check compares against the 48h constant — and instead runs to
the end of the stream, returning the io.EOF decode error, not a timeout
error. -/
theorem C3_configured_timeout_ignored :
    Pull ⟨"http://localhost:11434", "tinyllama", false, 1⟩ true []
      (.ok ⟨200, [⟨.ok ⟨"", 0, 0, "pulling manifest"⟩, 1000000000⟩]⟩) =
      some ⟨"", some .eof, []⟩ ∧
    (1000000000 : Duration) >
      (⟨"http://localhost:11434", "tinyllama", false, 1⟩ : Config).PullTimeout ∧
    GoErr.eof ≠ .pullTimedOut "tinyllama" 1 := by
  exact ⟨by decide, by decide, by decide⟩

/-- C3 (amended): the per-record timeout check compares the elapsed time
against the fixed 48-hour `defaultPullTimeout` constant — the session's
configured PullTimeout is ignored — and when it fires, Pull stops reading
and returns the accumulated text (always empty) plus a timeout error
naming the model and that 48-hour constant. -/
theorem C3_timeout_fires_on_default_constant (oc : Config) (nc : Bool) (ov : List Bool)
    (code : Int) (pre : List StreamItem) (s : PullResponse) (t : Duration)
    (rest : List StreamItem) (hpre : pre.all (benignB nc) = true)
    (hs : s.status ≠ "success") (hr : rendOkB nc s = true) (ht : t > defaultPullTimeout) :
    ∃ out, Pull oc nc ov (.ok ⟨code, pre ++ ⟨.ok s, t⟩ :: rest⟩) =
      some ⟨"", some (.pullTimedOut oc.Model defaultPullTimeout), out⟩ := by
  obtain ⟨st2, hsb, hrest⟩ := pullLoop_benign_append oc nc (pullVerbose oc ov) pre
    ⟨"", 0, "", pullPreOut oc (pullVerbose oc ov)⟩ hpre
  obtain ⟨out, hstep⟩ := pullStep_timeout oc nc (pullVerbose oc ov) st2 s t hs hr ht
  refine ⟨out, ?_⟩
  show pullLoop oc nc (pullVerbose oc ov) ⟨"", 0, "", pullPreOut oc (pullVerbose oc ov)⟩
    (pre ++ ⟨.ok s, t⟩ :: rest) = _
  rw [hrest]
  simp only [pullLoop, hstep]
  rw [hsb]

/-- Witness for C3: a session configured with a 7ns PullTimeout still gets
the timeout error built from the 48h constant when the elapsed time passes
48 hours. -/
theorem C3_timeout_fires_on_default_constant_witness :
    ∃ out, Pull ⟨"http://localhost:11434", "tinyllama", false, 7⟩ true []
      (.ok ⟨200, [] ++ ⟨.ok ⟨"", 0, 0, "pulling manifest"⟩, defaultPullTimeout + 1⟩ :: []⟩) =
      some ⟨"", some (.pullTimedOut "tinyllama" defaultPullTimeout), out⟩ :=
  C3_timeout_fires_on_default_constant _ true [] 200 [] _ _ [] (by decide) (by decide)
    (by decide) (by decide)

end Ollama

namespace Ollama

/-- At a success record the step's outcome does not depend on the elapsed
time sampled for that iteration: the success check precedes the timeout
check in the loop body. -/
theorem pullStep_success_elapsed_indep (oc : Config) (nc v : Bool) (st : LoopState)
    (resp : PullResponse) (t t' : Duration) (h : resp.status = "success") :
    pullStep oc nc v st ⟨.ok resp, t⟩ = pullStep oc nc v st ⟨.ok resp, t'⟩ := by
  simp [pullStep, h]

/-- A success record never lets the loop fall through to another
iteration: the step either panics in the renderer or ends the loop. -/
theorem pullStep_success_not_next (oc : Config) (nc v : Bool) (st : LoopState)
    (resp : PullResponse) (t : Duration) (st2 : LoopState) (h : resp.status = "success") :
    pullStep oc nc v st ⟨.ok resp, t⟩ ≠ .next st2 := by
  by_cases h0 : resp.total = 0
  · simp [pullStep, h0, h]
  · cases hbar : generateColorizedProgressBar nc
      ((resp.completed : ℚ) / (resp.total : ℚ) * 100) 30 with
    | none => simp [pullStep, h0, hbar]
    | some bar => simp [pullStep, h0, hbar, h]

/-- Once the stream reaches a success record, the loop result does not
depend on that record's elapsed time nor on any record after it. -/
theorem pullLoop_success_indep (oc : Config) (nc v : Bool) (s : PullResponse)
    (hs : s.status = "success") :
    ∀ (pre : List StreamItem) (st : LoopState) (t t' : Duration)
      (rest rest' : List StreamItem),
      pullLoop oc nc v st (pre ++ ⟨.ok s, t⟩ :: rest) =
        pullLoop oc nc v st (pre ++ ⟨.ok s, t'⟩ :: rest') := by
  intro pre
  induction pre with
  | nil =>
    intro st t t' rest rest'
    simp only [List.nil_append, pullLoop]
    rw [pullStep_success_elapsed_indep oc nc v st s t t' hs]
    cases hstep : pullStep oc nc v st ⟨.ok s, t'⟩ with
    | crash => rfl
    | done r => rfl
    | next st2 => exact absurd hstep (pullStep_success_not_next oc nc v st s t' st2 hs)
  | cons x pre ih =>
    intro st t t' rest rest'
    simp only [List.cons_append, pullLoop]
    cases hstep : pullStep oc nc v st x with
    | crash => rfl
    | done r => rfl
    | next st2 => exact ih st2 t t' rest rest'

/-- C7: once a success record is observed no further records are read —
the result is the same whatever follows, and whatever elapsed time is
attached to the success record — and no timeout check happens on that
iteration: when the stream actually reaches the record (benign prefix,
renderable record), the loop ends with the accumulator and no error even
if the elapsed time at that point exceeds the timeout. -/
theorem C7_success_stops_reading (oc : Config) (nc v : Bool) (st : LoopState)
    (pre : List StreamItem) (s : PullResponse) (t t' : Duration)
    (rest rest' : List StreamItem) (hs : s.status = "success") :
    pullLoop oc nc v st (pre ++ ⟨.ok s, t⟩ :: rest) =
      pullLoop oc nc v st (pre ++ ⟨.ok s, t'⟩ :: rest') ∧
    (pre.all (benignB nc) = true → rendOkB nc s = true →
      ∃ out, pullLoop oc nc v st (pre ++ ⟨.ok s, t⟩ :: rest) = some ⟨st.sb, none, out⟩) := by
  constructor
  · exact pullLoop_success_indep oc nc v s hs pre st t t' rest rest'
  · intro hpre hr
    obtain ⟨st2, hsb, hrest⟩ := pullLoop_benign_append oc nc v pre st hpre
    obtain ⟨out, hstep⟩ := pullStep_success oc nc v st2 s t hs hr
    refine ⟨out, ?_⟩
    rw [hrest]
    simp only [pullLoop, hstep]
    rw [hsb]

/-- Witness for C7: the success record carries an elapsed time far past
the 48h constant and is followed by a malformed record; the result equals
the run with no trailing record and zero elapsed time, and is a
no-error result. -/
theorem C7_success_stops_reading_witness :
    pullLoop ⟨"http://localhost:11434", "tinyllama", false, defaultPullTimeout⟩ true false
        ⟨"", 0, "", []⟩ ([⟨.ok ⟨"", 0, 0, "pulling manifest"⟩, 0⟩] ++
          ⟨.ok ⟨"", 0, 0, "success"⟩, defaultPullTimeout + 9⟩ :: [⟨.error "junk", 0⟩]) =
      pullLoop ⟨"http://localhost:11434", "tinyllama", false, defaultPullTimeout⟩ true false
        ⟨"", 0, "", []⟩ ([⟨.ok ⟨"", 0, 0, "pulling manifest"⟩, 0⟩] ++
          ⟨.ok ⟨"", 0, 0, "success"⟩, 0⟩ :: []) ∧
    ∃ out, pullLoop ⟨"http://localhost:11434", "tinyllama", false, defaultPullTimeout⟩ true false
        ⟨"", 0, "", []⟩ ([⟨.ok ⟨"", 0, 0, "pulling manifest"⟩, 0⟩] ++
          ⟨.ok ⟨"", 0, 0, "success"⟩, defaultPullTimeout + 9⟩ :: [⟨.error "junk", 0⟩]) =
      some ⟨"", none, out⟩ := by
  have h := C7_success_stops_reading ⟨"http://localhost:11434", "tinyllama", false,
    defaultPullTimeout⟩ true false ⟨"", 0, "", []⟩ [⟨.ok ⟨"", 0, 0, "pulling manifest"⟩, 0⟩]
    ⟨"", 0, 0, "success"⟩ (defaultPullTimeout + 9) 0 [⟨.error "junk", 0⟩] [] rfl
  exact ⟨h.1, h.2 (by decide) (by decide)⟩

end Ollama

namespace Ollama

/-- The observable result pair of the record loop of src/pull.go does not
depend on the verbose flag, the spinner index, or the output accumulated
so far (given configs with the same model name, which is the only config
field the loop reads). -/
theorem pullLoop_result_indep_verbose (oc₁ oc₂ : Config) (nc : Bool)
    (hM : oc₁.Model = oc₂.Model) :
    ∀ (items : List StreamItem) (v₁ v₂ : Bool) (sb last : String) (sp₁ sp₂ : Nat)
      (out₁ out₂ : List String),
      (pullLoop oc₁ nc v₁ ⟨sb, sp₁, last, out₁⟩ items).map resPair =
      (pullLoop oc₂ nc v₂ ⟨sb, sp₂, last, out₂⟩ items).map resPair := by
  intro items
  induction items with
  | nil => intro v₁ v₂ sb last sp₁ sp₂ out₁ out₂; simp [pullLoop, resPair]
  | cons x rest ih =>
    intro v₁ v₂ sb last sp₁ sp₂ out₁ out₂
    obtain ⟨d, t⟩ := x
    match d with
    | .error msg => simp [pullLoop, pullStep, resPair]
    | .ok resp =>
      by_cases h0 : resp.total = 0
      · by_cases hs : resp.status = "success"
        · cases v₁ <;> cases v₂ <;> simp [pullLoop, pullStep, h0, hs, resPair]
        · by_cases ht : t > defaultPullTimeout
          · cases v₁ <;> cases v₂ <;> simp [pullLoop, pullStep, h0, hs, ht, resPair, hM]
          · cases v₁ <;> cases v₂ <;>
              (simp [pullLoop, pullStep, h0, hs, ht]; exact ih _ _ _ _ _ _ _ _)
      · cases hbar : generateColorizedProgressBar nc
          ((resp.completed : ℚ) / (resp.total : ℚ) * 100) 30 with
        | none => simp [pullLoop, pullStep, h0, hbar]
        | some bar =>
          by_cases hs : resp.status = "success"
          · cases v₁ <;> cases v₂ <;> simp [pullLoop, pullStep, h0, hbar, hs, resPair]
          · by_cases ht : t > defaultPullTimeout
            · cases v₁ <;> cases v₂ <;> simp [pullLoop, pullStep, h0, hbar, hs, ht, resPair, hM]
            · cases v₁ <;> cases v₂ <;>
                (simp [pullLoop, pullStep, h0, hbar, hs, ht]; exact ih _ _ _ _ _ _ _ _)

/-- The observable result pair of the strict historical loop does not
depend on the verbose flag, the gotUnusualStatus flag, or the output
accumulated so far (given configs with the same pull timeout, which is the
only config field this loop reads). -/
theorem pullStrictLoop_result_indep_verbose (oc₁ oc₂ : Config)
    (hPT : oc₁.PullTimeout = oc₂.PullTimeout) :
    ∀ (items : List StreamItem) (v₁ v₂ g₁ g₂ : Bool) (sb : String)
      (out₁ out₂ : List String),
      resPair (pullStrictLoop oc₁ v₁ g₁ sb out₁ items) =
      resPair (pullStrictLoop oc₂ v₂ g₂ sb out₂ items) := by
  intro items
  induction items with
  | nil => intro v₁ v₂ g₁ g₂ sb out₁ out₂; simp [pullStrictLoop, resPair]
  | cons x rest ih =>
    intro v₁ v₂ g₁ g₂ sb out₁ out₂
    obtain ⟨d, t⟩ := x
    match d with
    | .error msg => simp [pullStrictLoop, resPair]
    | .ok resp =>
      by_cases hdp : (!goHasPref resp.status "downloading " &&
          !goHasPref resp.status "pulling ") = true
      · by_cases hv : goHasPref resp.status "verifying " = true
        · simp [pullStrictLoop, hdp, hv, resPair]
        · simp [pullStrictLoop, hdp, hv, resPair]
      · by_cases ht : t > oc₁.PullTimeout
        · have ht₂ : t > oc₂.PullTimeout := hPT ▸ ht
          simp [pullStrictLoop, hdp, ht, ht₂, resPair, hPT]
        · have ht₂ : ¬ t > oc₂.PullTimeout := hPT ▸ ht
          simp only [pullStrictLoop]
          rw [if_neg hdp, if_neg hdp, if_neg ht, if_neg ht₂]
          exact ih _ _ _ _ _ _ _

/-- C9: the pair (returned status text, returned error) of Pull is the
same whether verbose mode is on or off, for both the current and the
strict historical implementation: the verbose flag only changes the
printed output trace. -/
theorem C9_verbose_does_not_change_result (oc : Config) (nc : Bool)
    (post : Except String HttpResponse) (b₁ b₂ : Bool) :
    (Pull { oc with Verbose := b₁ } nc [] post).map resPair =
      (Pull { oc with Verbose := b₂ } nc [] post).map resPair ∧
    resPair (PullStrict { oc with Verbose := b₁ } [] post) =
      resPair (PullStrict { oc with Verbose := b₂ } [] post) := by
  constructor
  · cases post with
    | error msg => simp [Pull, pullVerbose, pullPreOut, resPair]
    | ok r =>
      exact pullLoop_result_indep_verbose { oc with Verbose := b₁ } { oc with Verbose := b₂ }
        nc rfl r.body _ _ "" "" 0 0 _ _
  · cases post with
    | error msg => simp [PullStrict, pullVerbose, resPair]
    | ok r =>
      exact pullStrictLoop_result_indep_verbose { oc with Verbose := b₁ }
        { oc with Verbose := b₂ } rfl r.body _ _ false false "" _ _

end Ollama
